import Mathlib

/-!
Verification of the Local Clinical Decision Support Engine of the MedGPT
front-end (src/script.js): catalog search, interaction rule evaluation,
substitution optimization, risk scoring and selection state.

The JavaScript engine is shallowly embedded: records become structures,
optional record fields become Option (the code guards them with
defaulting where absent), JS string lowercasing and substring tests are
modelled character-wise, the stable JS Array.prototype.sort is modelled
by List.mergeSort, and the numeric risk arithmetic (small exact
integers in the source) is modelled over Int.
-/

namespace MedGPT

/-- One brand entry of a medicine record (src/script.js data model). -/
structure Brand where
  brand : String
  region : String
deriving DecidableEq, Repr

/-- A catalog medicine record. `id`, `name`, `generic` and `class` are
required by the code (accessed without guards); `ingredients`, `brands`,
`sideEffects` and `contraindications` are optional and defaulted to `[]`
at each use site (`m.x || []`, `m.x?.`), hence `Option`. -/
structure Med where
  id : String
  name : String
  generic : String
  «class» : String
  ingredients : Option (List String)
  brands : Option (List Brand)
  sideEffects : Option (List String)
  contraindications : Option (List String)
  priceINR : Int
deriving DecidableEq, Repr

/-- The patient profile fields consumed by the engine
(`age`/`region`/`allergies`/`ulcer`/`liver`; the display flags are
presentation-only and not modelled). -/
structure Profile where
  age : Int
  region : String
  allergies : List String
  ulcer : Bool
  liver : Bool
deriving DecidableEq, Repr

/-- The six-dimension risk profile returned by `riskScore`. -/
structure RiskProfile where
  Sedation : Int
  Gastro : Int
  Liver : Int
  Kidney : Int
  Interactions : Int
  Allergy : Int
deriving DecidableEq, Repr

/-- JS `s.toLowerCase()`, modelled character-wise (ASCII). -/
def jsToLower (s : String) : String :=
  ⟨s.data.map Char.toLower⟩

/-- Does the character list `s` start with the character list `q`? -/
def listStartsWith : List Char → List Char → Bool
  | [], _ => true
  | _ :: _, [] => false
  | a :: q, b :: s => a == b && listStartsWith q s

/-- Does the character list `s` contain `q` as a contiguous run?
This is JS `String.prototype.includes` on the underlying characters;
in particular the empty `q` is contained in everything. -/
def listHasSub (q : List Char) : List Char → Bool
  | [] => listStartsWith q []
  | b :: s => listStartsWith q (b :: s) || listHasSub q s

/-- JS `s.includes(q)`. -/
def includesStr (s q : String) : Bool :=
  listHasSub q.data s.data

/-- The per-record match predicate of `searchMedicineLocal`
(src/script.js lines 43-52); `q` is the already-lowercased query. -/
def matchesQuery (q : String) (m : Med) : Bool :=
  let brandHit := (m.brands.getD []).any fun b => includesStr (jsToLower b.brand) q
  let genericHit :=
    includesStr (jsToLower m.name) q || includesStr (jsToLower m.generic) q
  let ingredientHit := (m.ingredients.getD []).any fun i => includesStr (jsToLower i) q
  brandHit || genericHit || ingredientHit

/-- `searchMedicineLocal` (src/script.js lines 41-54): lowercase the
query, keep the catalog records the match predicate accepts. -/
def searchMedicineLocal (query : String) (medicineDB : List Med) : List Med :=
  medicineDB.filter (matchesQuery (jsToLower query))

def gastricWarning : String := "⚠️ Monitor gastric side effects with NSAID + antibiotic."

def liverWarning : String :=
  "⚠️ Paracetamol in liver issues: keep dose low and consult a clinician."

def allergyWarning : String := "⚠️ Penicillin allergy noted; avoid Amoxicillin/Clav."

/-- `checkInteractions` (src/script.js lines 55-70): three fixed rules
over the id set of `meds` and the profile, warnings appended in
declaration order. -/
def checkInteractions (meds : List Med) (profile : Profile) : List String :=
  let ids := meds.map Med.id
  (if ids.contains "ibuprofen" && ids.contains "amoxiclav" then [gastricWarning] else []) ++
  (if ids.contains "paracetamol" && profile.liver then [liverWarning] else []) ++
  (if ids.contains "amoxiclav" &&
      (profile.allergies.map jsToLower).contains "penicillin" then [allergyWarning] else [])

/-- Comparison used by the price sort: JS comparator
`(a, b) => a.priceINR - b.priceINR` sorts ascending by price. -/
def medLE (a b : Med) : Bool :=
  a.priceINR ≤ b.priceINR

/-- `sameClass` of `substituteAndOptimize` (src/script.js lines 72-74). -/
def sameClassOf (target : Med) (medicineDB : List Med) : List Med :=
  medicineDB.filter fun m => m.«class» == target.«class» && m.id != target.id

/-- `exactGeneric` of `substituteAndOptimize` (src/script.js lines
75-80): same ingredient-list length, and every ingredient of the
candidate occurs among the target's ingredients. -/
def exactGenericOf (target : Med) (medicineDB : List Med) : List Med :=
  medicineDB.filter fun m =>
    (m.ingredients.getD []).length == (target.ingredients.getD []).length &&
    (m.ingredients.getD []).all (fun ing => (target.ingredients.getD []).contains ing) &&
    m.id != target.id

/-- The result record of `substituteAndOptimize`. -/
structure SubstResult where
  exactGeneric : List Med
  sameClass : List Med
  cheapest : Med
  localBrands : List String
deriving DecidableEq, Repr

/-- `substituteAndOptimize` (src/script.js lines 71-88). The JS
`[target, ...sameClass].sort(comparator)[0]` is a stable ascending sort
of the fresh concatenation, modelled by `List.mergeSort`; the list is
nonempty so indexing 0 is `headD target`. -/
def substituteAndOptimize (target : Med) (medicineDB : List Med) (profile : Profile) :
    SubstResult :=
  { exactGeneric := exactGenericOf target medicineDB
    sameClass := sameClassOf target medicineDB
    cheapest := ((target :: sameClassOf target medicineDB).mergeSort medLE).headD target
    localBrands :=
      ((target.brands.getD []).filter fun b => b.region == profile.region).map Brand.brand }

/-- `selectedMeds.map(id => medicineDB.find(m => m.id === id)).filter(Boolean)`
(src/script.js lines 120-124 and 134-136). -/
def resolveSelection (selectedMeds : List String) (medicineDB : List Med) : List Med :=
  selectedMeds.filterMap fun i => medicineDB.find? fun m => m.id == i

/-- Sedation trigger: some lowercased side effect contains
drowsiness, sedation or fatigue (src/script.js lines 145-146). -/
def sedationHit (m : Med) : Bool :=
  ((m.sideEffects.getD []).map jsToLower).any fun s =>
    includesStr s "drowsiness" || includesStr s "sedation" || includesStr s "fatigue"

/-- Gastro trigger: lowercased class is exactly nsaid (line 147). -/
def gastroHit (m : Med) : Bool :=
  jsToLower m.«class» == "nsaid"

/-- Liver trigger: some ingredient matches paracetamol or acetaminophen
case-insensitively (lines 148-149). -/
def liverHit (m : Med) : Bool :=
  (m.ingredients.getD []).any fun i =>
    includesStr (jsToLower i) "paracetamol" || includesStr (jsToLower i) "acetaminophen"

/-- Kidney trigger: some contraindication matches kidney or renal
case-insensitively (line 150). -/
def kidneyHit (m : Med) : Bool :=
  (m.contraindications.getD []).any fun c =>
    includesStr (jsToLower c) "kidney" || includesStr (jsToLower c) "renal"

/-- JS `Math.max(0, Math.min(100, v))` (line 160). -/
def clamp (v : Int) : Int :=
  max 0 (min 100 v)

/-- `riskScore` (src/script.js lines 133-169). Reads the ambient
`selectedMeds`, `medicineDB` and `profile`, here passed explicitly.
The four per-medicine accumulators are independent, so the single
`forEach` of the source is rendered as one fold per accumulator. -/
def riskScore (selectedMeds : List String) (medicineDB : List Med) (profile : Profile) :
    RiskProfile :=
  let meds := resolveSelection selectedMeds medicineDB
  let sedation : Int := meds.foldl (fun acc m => if sedationHit m then acc + 25 else acc) 0
  let gastro0 : Int := meds.foldl (fun acc m => if gastroHit m then acc + 40 else acc) 0
  let liver0 : Int := meds.foldl (fun acc m => if liverHit m then acc + 40 else acc) 0
  let kidney : Int := meds.foldl (fun acc m => if kidneyHit m then acc + 20 else acc) 0
  let gastro : Int := if profile.ulcer then gastro0 + 30 else gastro0
  let liver : Int := if profile.liver then liver0 + 30 else liver0
  let inter : Int := min (((checkInteractions meds profile).length : Int) * 25) 100
  let allergy : Int :=
    if (profile.allergies.map jsToLower).contains "penicillin" &&
        selectedMeds.contains "amoxiclav" then 100 else 0
  { Sedation := clamp sedation
    Gastro := clamp gastro
    Liver := clamp liver
    Kidney := clamp kidney
    Interactions := clamp inter
    Allergy := clamp allergy }

/-- The selection-state add used at the three mutation sites
(src/script.js lines 246-247, 310-311, 349-350):
append the id only when it is not already present. -/
def addSelected (sel : List String) (x : String) : List String :=
  if sel.contains x then sel else sel ++ [x]

/-- The stable ascending-by-price sort, JS
`arr.sort((a, b) => a.priceINR - b.priceINR)`. -/
def jsSortByPrice (l : List Med) : List Med :=
  l.mergeSort medLE

/-- Heap-level rendering of `substituteAndOptimize` for the frame
property: JS arrays are numbered cells of a store. The catalog array
lives at `dbRef`; the array literal `[target, ...sameClass]` allocates
a fresh cell at the end of the store, and `.sort` mutates that fresh
cell in place. The final store is returned alongside the result. -/
def substituteAndOptimizeHeap (target : Med) (dbRef : Nat) (heap : List (List Med))
    (profile : Profile) : SubstResult × List (List Med) :=
  let db := heap.getD dbRef []
  let tmpRef := heap.length
  let heap1 := heap ++ [target :: sameClassOf target db]
  let heap2 := heap1.set tmpRef (jsSortByPrice (heap1.getD tmpRef []))
  ({ exactGeneric := exactGenericOf target db
     sameClass := sameClassOf target db
     cheapest := (heap2.getD tmpRef []).headD target
     localBrands :=
       ((target.brands.getD []).filter fun b => b.region == profile.region).map Brand.brand },
   heap2)

/-! Concrete fixtures mirroring the demo catalog shape
(data/medicineData.json records consumed by src/script.js), used by
witnesses and counterexamples. -/

def demoPara : Med :=
  { id := "paracetamol", name := "Paracetamol 500", generic := "Paracetamol",
    «class» := "Analgesic", ingredients := some ["Paracetamol"],
    brands := some [{ brand := "Calpol", region := "IN" }],
    sideEffects := some ["nausea"], contraindications := some ["severe liver disease"],
    priceINR := 2 }

def demoIbu : Med :=
  { id := "ibuprofen", name := "Ibuprofen 200", generic := "Ibuprofen",
    «class» := "NSAID", ingredients := some ["Ibuprofen"],
    brands := some [{ brand := "Brufen", region := "IN" }],
    sideEffects := some ["drowsiness"], contraindications := some ["kidney disease"],
    priceINR := 3 }

def demoAmox : Med :=
  { id := "amoxiclav", name := "Amoxiclav 625", generic := "Amoxicillin + Clavulanate",
    «class» := "Antibiotic", ingredients := some ["Amoxicillin", "Clavulanic acid"],
    brands := some [{ brand := "Augmentin", region := "IN" }],
    sideEffects := some ["nausea"], contraindications := none,
    priceINR := 18 }

/-- Target record for the `exactGeneric` direction counterexample:
two distinct ingredients. -/
def mixT : Med :=
  { id := "mixt", name := "MixT", generic := "MixT", «class» := "Combo",
    ingredients := some ["a", "b"], brands := none, sideEffects := none,
    contraindications := none, priceINR := 5 }

/-- Candidate whose ingredient list repeats one target ingredient:
same length as `mixT.ingredients` and every candidate ingredient occurs
in the target, yet the target ingredient `b` is absent from it. -/
def mixC : Med :=
  { id := "mixc", name := "MixC", generic := "MixC", «class» := "Other",
    ingredients := some ["a", "a"], brands := none, sideEffects := none,
    contraindications := none, priceINR := 7 }

def demoProfile : Profile :=
  { age := 21, region := "IN", allergies := [], ulcer := false, liver := false }

def ulcerProfile : Profile :=
  { age := 21, region := "IN", allergies := [], ulcer := true, liver := false }

def allergyProfile : Profile :=
  { age := 21, region := "IN", allergies := ["Penicillin"], ulcer := false, liver := false }

/-! Helper lemmas. -/

/-- The empty pattern is contained in every character list
(JS `s.includes("")` is always `true`). -/
theorem listHasSub_nil_left (l : List Char) : listHasSub [] l = true := by
  cases l <;> simp [listHasSub, listStartsWith]

/-- `medLE` is transitive. -/
theorem medLE_trans : ∀ a b c : Med, medLE a b → medLE b c → medLE a c := by
  intro a b c hab hbc
  simp only [medLE, decide_eq_true_eq] at *
  omega

/-- `medLE` is total. -/
theorem medLE_total : ∀ a b : Med, medLE a b || medLE b a := by
  intro a b
  simp only [medLE, Bool.or_eq_true, decide_eq_true_eq]
  omega

/-- The head of the stable ascending sort is the first minimum: the
input splits around it into a strictly-more-expensive prefix and a
remainder. -/
theorem mergeSort_headD_first_min (d : Med) :
    ∀ l : List Med, l ≠ [] →
      ∃ l₁ l₂, l = l₁ ++ ((l.mergeSort medLE).headD d) :: l₂ ∧
        ∀ b ∈ l₁, medLE b ((l.mergeSort medLE).headD d) = false := by
  intro l
  induction l with
  | nil => intro h; exact absurd rfl h
  | cons a t ih =>
    intro _
    cases t with
    | nil =>
      refine ⟨[], [], ?_, ?_⟩
      · simp
      · intro b hb; cases hb
    | cons x t2 =>
      obtain ⟨m₁, m₂, h₁, h₂, h₃⟩ := List.mergeSort_cons medLE_trans medLE_total a (x :: t2)
      cases m₁ with
      | nil =>
        refine ⟨[], x :: t2, ?_, ?_⟩
        · rw [h₁]; rfl
        · intro b hb; cases hb
      | cons c m₁t =>
        obtain ⟨t₁, t₂, ht, hpre⟩ := ih (by simp)
        have hc : ((x :: t2).mergeSort medLE).headD d = c := by rw [h₂]; rfl
        have hg : ((a :: x :: t2).mergeSort medLE).headD d = c := by rw [h₁]; rfl
        rw [hc] at ht hpre
        refine ⟨a :: t₁, t₂, ?_, ?_⟩
        · rw [hg]
          simpa using congrArg (a :: ·) ht
        · intro b hb
          rw [hg]
          rcases List.mem_cons.mp hb with hb | hb
          · subst hb
            have := h₃ c (List.mem_cons_self c m₁t)
            simpa using this
          · exact hpre b hb

/-- The head of the stable ascending sort has minimal price. -/
theorem mergeSort_headD_min (d : Med) (l : List Med) :
    ∀ m ∈ l, ((l.mergeSort medLE).headD d).priceINR ≤ m.priceINR := by
  intro m hm
  have hs := List.sorted_mergeSort medLE_trans medLE_total l
  have hmem : m ∈ l.mergeSort medLE := List.mem_mergeSort.mpr hm
  cases hsort : l.mergeSort medLE with
  | nil => rw [hsort] at hmem; cases hmem
  | cons c rest =>
    rw [hsort] at hmem hs
    rcases List.mem_cons.mp hmem with hmc | hmr
    · subst hmc; simp
    · have := (List.pairwise_cons.mp hs).1 m hmr
      simpa [medLE] using this

/-! Claim theorems. -/

/-- Claim C1, counterexample: on a one-record catalog the empty-string
query does not return the empty sequence (it returns the record: every
string includes the empty substring, so every record matches). -/
theorem search_empty_query_counterexample :
    searchMedicineLocal "" [demoPara] ≠ [] := by decide

/-- Claim C1, amended: for every catalog, search with the empty-string
query returns the full catalog (not the empty sequence). -/
theorem search_empty_query_full_catalog (db : List Med) :
    searchMedicineLocal "" db = db := by
  unfold searchMedicineLocal
  apply List.filter_eq_self.mpr
  intro m _
  have hq : (jsToLower "").data = [] := rfl
  simp [matchesQuery, includesStr, hq, listHasSub_nil_left]

/-- Claim C2: for every selection of medicine ids, catalog and profile,
every dimension of `riskScore` lies in [0,100] (the values are integers
by construction of the model: every contribution is an integer
constant). This includes the empty selection. -/
theorem riskScore_dimensions_in_range (sel : List String) (db : List Med) (prof : Profile) :
    (0 ≤ (riskScore sel db prof).Sedation ∧ (riskScore sel db prof).Sedation ≤ 100) ∧
    (0 ≤ (riskScore sel db prof).Gastro ∧ (riskScore sel db prof).Gastro ≤ 100) ∧
    (0 ≤ (riskScore sel db prof).Liver ∧ (riskScore sel db prof).Liver ≤ 100) ∧
    (0 ≤ (riskScore sel db prof).Kidney ∧ (riskScore sel db prof).Kidney ≤ 100) ∧
    (0 ≤ (riskScore sel db prof).Interactions ∧ (riskScore sel db prof).Interactions ≤ 100) ∧
    (0 ≤ (riskScore sel db prof).Allergy ∧ (riskScore sel db prof).Allergy ≤ 100) := by
  have hclamp : ∀ v : Int, 0 ≤ clamp v ∧ clamp v ≤ 100 := by
    intro v
    unfold clamp
    omega
  exact ⟨hclamp _, hclamp _, hclamp _, hclamp _, hclamp _, hclamp _⟩

/-- Claim C6: search returns a sublist of the catalog (hence a subset,
in catalog order), every returned record matches the query
case-insensitively on name, generic, an ingredient or a brand, and a
duplicate-free catalog yields duplicate-free results. -/
theorem search_sound (query : String) (db : List Med) :
    (searchMedicineLocal query db).Sublist db ∧
    (∀ m ∈ searchMedicineLocal query db,
      includesStr (jsToLower m.name) (jsToLower query) = true ∨
      includesStr (jsToLower m.generic) (jsToLower query) = true ∨
      (∃ i ∈ m.ingredients.getD [], includesStr (jsToLower i) (jsToLower query) = true) ∨
      (∃ b ∈ m.brands.getD [], includesStr (jsToLower b.brand) (jsToLower query) = true)) ∧
    (db.Nodup → (searchMedicineLocal query db).Nodup) := by
  refine ⟨List.filter_sublist db, ?_, fun h => List.Nodup.sublist (List.filter_sublist db) h⟩
  intro m hm
  have hmatch := (List.mem_filter.mp hm).2
  simp only [matchesQuery, Bool.or_eq_true, List.any_eq_true] at hmatch
  rcases hmatch with (hb | hn | hg) | hi
  · exact Or.inr (Or.inr (Or.inr hb))
  · exact Or.inl hn
  · exact Or.inr (Or.inl hg)
  · exact Or.inr (Or.inr (Or.inl hi))

/-- Claim C6 witness: on a concrete two-record catalog, the record
returned for query para matches it, and the result list has no
duplicates. -/
theorem search_sound_witness :
    (includesStr (jsToLower demoPara.name) (jsToLower "para") = true ∨
     includesStr (jsToLower demoPara.generic) (jsToLower "para") = true ∨
     (∃ i ∈ demoPara.ingredients.getD [], includesStr (jsToLower i) (jsToLower "para") = true) ∨
     (∃ b ∈ demoPara.brands.getD [], includesStr (jsToLower b.brand) (jsToLower "para") = true)) ∧
    (searchMedicineLocal "para" [demoPara, demoIbu]).Nodup :=
  ⟨(search_sound "para" [demoPara, demoIbu]).2.1 demoPara (by decide),
   (search_sound "para" [demoPara, demoIbu]).2.2 (by decide)⟩

/-- Claim C8: selection add is idempotent — adding the same id twice
yields the same ordered list as adding it once, and an id already
present is never appended again. -/
theorem addSelected_idempotent (sel : List String) (x : String) :
    addSelected (addSelected sel x) x = addSelected sel x ∧
    (sel.contains x = true → addSelected sel x = sel) := by
  constructor
  · by_cases h : x ∈ sel
    · simp [addSelected, h]
    · simp [addSelected, h]
  · intro h
    have hmem : x ∈ sel := by simpa using h
    simp [addSelected, hmem]

/-- Claim C3: `cheapest` has minimal price among the target and the
same-class records, and it is the first minimum in that concatenation
order — the input splits around it into a strictly-more-expensive
prefix and a remainder. -/
theorem cheapest_is_first_minimum (target : Med) (db : List Med) (prof : Profile) :
    (∀ m ∈ target :: sameClassOf target db,
      (substituteAndOptimize target db prof).cheapest.priceINR ≤ m.priceINR) ∧
    ∃ l₁ l₂, target :: sameClassOf target db
        = l₁ ++ (substituteAndOptimize target db prof).cheapest :: l₂ ∧
      ∀ b ∈ l₁, (substituteAndOptimize target db prof).cheapest.priceINR < b.priceINR := by
  constructor
  · intro m hm
    exact mergeSort_headD_min target (target :: sameClassOf target db) m hm
  · obtain ⟨l₁, l₂, heq, hpre⟩ :=
      mergeSort_headD_first_min target (target :: sameClassOf target db) (by simp)
    refine ⟨l₁, l₂, heq, ?_⟩
    intro b hb
    have hb2 := hpre b hb
    simp only [medLE, decide_eq_false_iff_not, not_le] at hb2
    exact hb2

/-- Claim C3 witness: on a concrete catalog the cheapest suggestion is
at most the target's own price. -/
theorem cheapest_is_first_minimum_witness :
    (substituteAndOptimize demoIbu [demoPara, demoIbu] demoProfile).cheapest.priceINR
      ≤ demoIbu.priceINR :=
  (cheapest_is_first_minimum demoIbu [demoPara, demoIbu] demoProfile).1 demoIbu (by decide)

/-- Claim C4, counterexample: `mixC` (ingredients a, a) is returned in
`exactGeneric` for target `mixT` (ingredients a, b) although not every
target ingredient occurs in the candidate — the code compares in the
candidate-to-target direction, not target-to-candidate as claimed. -/
theorem exactGeneric_direction_counterexample :
    mixC ∈ (substituteAndOptimize mixT [mixT, mixC] demoProfile).exactGeneric ∧
    ¬ ((mixC.ingredients.getD []).length = (mixT.ingredients.getD []).length ∧
       ∀ ing ∈ mixT.ingredients.getD [], ing ∈ mixC.ingredients.getD []) := by
  constructor
  · decide
  · decide

/-- Claim C4, amended: `exactGeneric` contains exactly the catalog
records other than the target whose ingredient list has the same length
as the target's and every ingredient OF THE CANDIDATE occurs among the
target's ingredients, in catalog order. -/
theorem exactGeneric_characterization (target : Med) (db : List Med) (prof : Profile) :
    ((substituteAndOptimize target db prof).exactGeneric).Sublist db ∧
    ∀ m, m ∈ (substituteAndOptimize target db prof).exactGeneric ↔
      (m ∈ db ∧
       (m.ingredients.getD []).length = (target.ingredients.getD []).length ∧
       (∀ ing ∈ m.ingredients.getD [], ing ∈ target.ingredients.getD []) ∧
       m.id ≠ target.id) := by
  constructor
  · exact List.filter_sublist db
  · intro m
    show m ∈ exactGenericOf target db ↔ _
    simp [exactGenericOf, List.mem_filter, List.all_eq_true, and_assoc]

/-- Claim C4 witness: the characterization applied on a concrete
catalog (the `exactGeneric` results form a sublist of the catalog). -/
theorem exactGeneric_characterization_witness :
    ((substituteAndOptimize demoIbu [demoPara, demoIbu] demoProfile).exactGeneric).Sublist
      [demoPara, demoIbu] :=
  (exactGeneric_characterization demoIbu [demoPara, demoIbu] demoProfile).1

/-- Claim C5: with the selection consisting of the amoxiclav reference
medicine and a profile whose allergies contain Penicillin
case-insensitively, `checkInteractions` emits the allergy-avoidance
warning and the Allergy dimension of `riskScore` is 100. -/
theorem penicillin_allergy_scenario (amox : Med) (db : List Med) (prof : Profile)
    (hid : amox.id = "amoxiclav")
    (hall : "penicillin" ∈ prof.allergies.map jsToLower) :
    allergyWarning ∈ checkInteractions [amox] prof ∧
    (riskScore [amox.id] db prof).Allergy = 100 := by
  have hc : (prof.allergies.map jsToLower).contains "penicillin" = true := by
    simpa using hall
  have hsel : (([amox.id] : List String).contains "amoxiclav") = true := by
    rw [hid]; decide
  constructor
  · cases hliv : prof.liver <;>
    · simp only [checkInteractions, List.map_cons, List.map_nil, hid, hc, hliv]
      decide
  · have hproj : (riskScore [amox.id] db prof).Allergy =
        clamp (if (prof.allergies.map jsToLower).contains "penicillin" &&
            ([amox.id] : List String).contains "amoxiclav" then (100 : Int) else 0) := rfl
    rw [hproj, hc, hsel]
    decide

/-- Claim C5 witness: the scenario at a concrete amoxiclav record and a
profile listing the allergy as Penicillin. -/
theorem penicillin_allergy_scenario_witness :
    allergyWarning ∈ checkInteractions [demoAmox] allergyProfile ∧
    (riskScore [demoAmox.id] [] allergyProfile).Allergy = 100 :=
  penicillin_allergy_scenario demoAmox [] allergyProfile rfl (by decide)

/-- Claim C8 witness: concrete add of an id absent, then present. -/
theorem addSelected_idempotent_witness :
    addSelected (addSelected ["ibuprofen"] "paracetamol") "paracetamol"
      = addSelected ["ibuprofen"] "paracetamol" ∧
    addSelected ["paracetamol"] "paracetamol" = ["paracetamol"] :=
  ⟨(addSelected_idempotent ["ibuprofen"] "paracetamol").1,
   (addSelected_idempotent ["paracetamol"] "paracetamol").2 (by decide)⟩

/-- Claim C7, counterexample: with an empty catalog and empty selection
but an ulcer profile, `riskScore` is not zeroed — Gastro is 30, the
profile-only contribution survives. -/
theorem empty_catalog_not_zeroed :
    (riskScore [] [] ulcerProfile).Gastro = 30 ∧ (30 : Int) ≠ 0 := by
  constructor
  · decide
  · decide

/-- Claim C7, amended: with an empty catalog, search returns the empty
sequence, `checkInteractions` on a selection resolved from the empty
catalog returns no warnings, `substituteAndOptimize` returns empty
`sameClass` and `exactGeneric` with `cheapest` falling back to the
target itself, and `riskScore` is zero in every dimension except the
profile-only contributions (Gastro 30 on ulcer, Liver 30 on liver
flag, Allergy 100 on a penicillin allergy with the amoxiclav id
selected). All four operations are total functions of the model, so
none of them throws. -/
theorem empty_catalog_behavior (q : String) (target : Med) (sel : List String)
    (prof : Profile) :
    searchMedicineLocal q [] = [] ∧
    checkInteractions (resolveSelection sel []) prof = [] ∧
    (substituteAndOptimize target [] prof).sameClass = [] ∧
    (substituteAndOptimize target [] prof).exactGeneric = [] ∧
    (substituteAndOptimize target [] prof).cheapest = target ∧
    riskScore sel [] prof =
      { Sedation := 0, Gastro := if prof.ulcer then 30 else 0,
        Liver := if prof.liver then 30 else 0, Kidney := 0, Interactions := 0,
        Allergy := if (prof.allergies.map jsToLower).contains "penicillin" &&
            sel.contains "amoxiclav" then 100 else 0 } := by
  have hres : resolveSelection sel ([] : List Med) = [] := by
    simp [resolveSelection]
  have hCI : checkInteractions [] prof = [] := rfl
  refine ⟨rfl, ?_, rfl, rfl, ?_, ?_⟩
  · rw [hres, hCI]
  · show ((target :: sameClassOf target []).mergeSort medLE).headD target = target
    simp [sameClassOf]
  · simp only [riskScore, hres, hCI, List.foldl_nil, List.length_nil]
    cases hu : prof.ulcer <;> cases hl : prof.liver <;>
      cases hall : ((prof.allergies.map jsToLower).contains "penicillin" &&
        sel.contains "amoxiclav") <;> decide

/-- Transfers a successful id lookup along a membership-preserving map
of id lists. -/
theorem contains_mono {l l2 : List String} (h : ∀ i ∈ l, i ∈ l2) {a : String}
    (ha : l.contains a = true) : l2.contains a = true := by
  simp only [List.contains_eq_any_beq, List.any_eq_true] at ha ⊢
  obtain ⟨x, hx, hbeq⟩ := ha
  exact ⟨x, h x hx, hbeq⟩

/-- Two id lists with the same members agree on every lookup. -/
theorem contains_congr {l l2 : List String} (h : ∀ i ∈ l, i ∈ l2)
    (h2 : ∀ i ∈ l2, i ∈ l) (a : String) : l.contains a = l2.contains a := by
  rw [Bool.eq_iff_iff]
  constructor
  · exact contains_mono h
  · exact contains_mono h2

/-- Claim C9: `checkInteractions` is monotone in the id set of the
medicine list, and its warnings depend only on that id set — not on
order or multiplicity. -/
theorem checkInteractions_monotone (meds meds2 : List Med) (prof : Profile) :
    ((∀ i ∈ meds.map Med.id, i ∈ meds2.map Med.id) →
      ∀ w ∈ checkInteractions meds prof, w ∈ checkInteractions meds2 prof) ∧
    (((∀ i ∈ meds.map Med.id, i ∈ meds2.map Med.id) ∧
      (∀ i ∈ meds2.map Med.id, i ∈ meds.map Med.id)) →
      checkInteractions meds prof = checkInteractions meds2 prof) := by
  constructor
  · intro h w hw
    simp only [checkInteractions, List.mem_append] at hw ⊢
    rcases hw with (hw | hw) | hw
    · by_cases hcond : ((meds.map Med.id).contains "ibuprofen" &&
          (meds.map Med.id).contains "amoxiclav") = true
      · obtain ⟨h1, h2⟩ := Bool.and_eq_true_iff.mp hcond
        refine Or.inl (Or.inl ?_)
        rw [if_pos (Bool.and_eq_true_iff.mpr ⟨contains_mono h h1, contains_mono h h2⟩)]
        rwa [if_pos hcond] at hw
      · rw [if_neg hcond] at hw
        cases hw
    · by_cases hcond : ((meds.map Med.id).contains "paracetamol" && prof.liver) = true
      · obtain ⟨h1, h2⟩ := Bool.and_eq_true_iff.mp hcond
        refine Or.inl (Or.inr ?_)
        rw [if_pos (Bool.and_eq_true_iff.mpr ⟨contains_mono h h1, h2⟩)]
        rwa [if_pos hcond] at hw
      · rw [if_neg hcond] at hw
        cases hw
    · by_cases hcond : ((meds.map Med.id).contains "amoxiclav" &&
          (prof.allergies.map jsToLower).contains "penicillin") = true
      · obtain ⟨h1, h2⟩ := Bool.and_eq_true_iff.mp hcond
        refine Or.inr ?_
        rw [if_pos (Bool.and_eq_true_iff.mpr ⟨contains_mono h h1, h2⟩)]
        rwa [if_pos hcond] at hw
      · rw [if_neg hcond] at hw
        cases hw
  · rintro ⟨h, h2⟩
    simp only [checkInteractions]
    rw [contains_congr h h2 "ibuprofen", contains_congr h h2 "amoxiclav",
      contains_congr h h2 "paracetamol"]

/-- Claim C9 witness: warnings survive growing the selection, and a
permuted selection with a duplicated entry yields the identical
warning list. -/
theorem checkInteractions_monotone_witness :
    (∀ w ∈ checkInteractions [demoIbu] demoProfile,
      w ∈ checkInteractions [demoIbu, demoAmox] demoProfile) ∧
    checkInteractions [demoAmox, demoIbu] demoProfile
      = checkInteractions [demoIbu, demoAmox, demoIbu] demoProfile :=
  ⟨(checkInteractions_monotone [demoIbu] [demoIbu, demoAmox] demoProfile).1 (by decide),
   (checkInteractions_monotone [demoAmox, demoIbu] [demoIbu, demoAmox, demoIbu]
     demoProfile).2 ⟨by decide, by decide⟩⟩

/-- Claim C10: in the heap model of `substituteAndOptimize`, every
array cell that existed before the call — in particular the catalog
cell — is unchanged afterwards: the price sort mutates only the
freshly allocated concatenation cell. Moreover the heap run computes
exactly the pure result (target record and profile are immutable
values of the model). -/
theorem substituteHeap_frame (target : Med) (dbRef : Nat) (heap : List (List Med))
    (prof : Profile) :
    (∀ i, i < heap.length →
      ((substituteAndOptimizeHeap target dbRef heap prof).2).getD i [] = heap.getD i []) ∧
    (substituteAndOptimizeHeap target dbRef heap prof).1
      = substituteAndOptimize target (heap.getD dbRef []) prof := by
  have hfresh : (heap ++ [target :: sameClassOf target (heap.getD dbRef [])]).getD
      heap.length [] = target :: sameClassOf target (heap.getD dbRef []) := by
    rw [List.getD_append_right _ _ _ _ (Nat.le_refl _)]
    simp
  have hset : (substituteAndOptimizeHeap target dbRef heap prof).2
      = heap ++ [jsSortByPrice (target :: sameClassOf target (heap.getD dbRef []))] := by
    show (heap ++ [target :: sameClassOf target (heap.getD dbRef [])]).set heap.length
        (jsSortByPrice ((heap ++ [target :: sameClassOf target (heap.getD dbRef [])]).getD
          heap.length [])) = _
    rw [hfresh, List.set_append_right _ _ (Nat.le_refl _)]
    simp
  constructor
  · intro i hi
    rw [hset]
    exact List.getD_append _ _ _ _ hi
  · show ({ exactGeneric := exactGenericOf target (heap.getD dbRef [])
            sameClass := sameClassOf target (heap.getD dbRef [])
            cheapest := (((heap ++ [target :: sameClassOf target (heap.getD dbRef [])]).set
              heap.length
              (jsSortByPrice ((heap ++ [target :: sameClassOf target
                (heap.getD dbRef [])]).getD heap.length []))).getD heap.length []).headD
              target
            localBrands := ((target.brands.getD []).filter
              fun b => b.region == prof.region).map Brand.brand } : SubstResult) = _
    rw [hfresh, List.set_append_right _ _ (Nat.le_refl _)]
    simp only [Nat.sub_self, List.set_cons_zero]
    rw [List.getD_append_right _ _ _ _ (Nat.le_refl _)]
    simp only [Nat.sub_self]
    rfl

/-- Claim C10 witness: a concrete one-cell store holding the catalog is
untouched by the call. -/
theorem substituteHeap_frame_witness :
    ((substituteAndOptimizeHeap demoIbu 0 [[demoPara]] demoProfile).2).getD 0 []
      = [demoPara] :=
  (substituteHeap_frame demoIbu 0 [[demoPara]] demoProfile).1 0 (by decide)

end MedGPT
